import Mathlib

/-!
Verification of the Model Artifact lifecycle manager
(`ads/common/model_artifact.py`) against its natural-language
specification.  Strings are embedded as `List Char` (the `.data` of a
Lean `String`); the stateful Python methods are embedded as pure
functions over explicit state records, with remote collaborators
(object storage, the model catalog) represented as oracle arguments.
-/

namespace Ads

/-- Strings of the embedded program, as lists of characters. -/
abbrev Str := List Char

/-- Decidable equality for `Except` results, so that concrete runs of
the embedded operations can be checked by `decide`. -/
instance exceptDecEq {ε α : Type} [DecidableEq ε] [DecidableEq α] :
    DecidableEq (Except ε α) := fun x y =>
  match x, y with
  | .ok a, .ok b =>
    if h : a = b then .isTrue (by rw [h]) else .isFalse (by simp [h])
  | .error a, .error b =>
    if h : a = b then .isTrue (by rw [h]) else .isFalse (by simp [h])
  | .ok _, .error _ => .isFalse (by simp)
  | .error _, .ok _ => .isFalse (by simp)

/-! ## Metadata store

`ModelCustomMetadata` / `ModelTaxonomyMetadata` live in
`ads.common.model_metadata` (outside the sources at hand).  They are
modelled from the spec, 4.1: a typed key/value container with a closed
key vocabulary, per-entry size accounting (`size()` = sum of the
serialized entries' byte lengths) and `validate()` failing on keys
outside the closed enumeration. -/

/-- Modelled from the spec: a metadata entry, abstracted to its key and
the byte length of its serialized `{value, description, category}`
payload (spec 3 "Custom Metadata", 4.1 `size()`). -/
structure MetadataItem where
  key : Str
  entrySize : Nat
deriving DecidableEq

/-- Modelled from the spec: the ordered key/value container backing
`ModelCustomMetadata` and `ModelTaxonomyMetadata` (spec 4.1). -/
structure MetadataStore where
  items : List MetadataItem
deriving DecidableEq

/-- Modelled from the spec, 4.1: `size()` is the sum of the serialized
entries' byte lengths. -/
def MetadataStore.size (m : MetadataStore) : Nat :=
  (m.items.map (fun it => it.entrySize)).sum

/-- Modelled from the spec, 4.1: replace the entry with a matching key,
or append the entry when the key is fresh. -/
def MetadataStore.upsert (m : MetadataStore) (it : MetadataItem) : MetadataStore :=
  if m.items.any (fun x => x.key == it.key) then
    ⟨m.items.map (fun x => if x.key == it.key then it else x)⟩
  else
    ⟨m.items ++ [it]⟩

/-- Error raised by `add` (spec 4.1): duplicate key without `replace`. -/
inductive MetaAddErr where
  | duplicateKey (key : Str)
deriving DecidableEq

/-- Modelled from the spec, 4.1: `add(key, value, ..., replace)` fails
with `DuplicateKey` when the key already exists and `replace` is false;
no size accounting happens at add time. -/
def MetadataStore.addItem (m : MetadataStore) (it : MetadataItem) (replace : Bool) :
    Except MetaAddErr MetadataStore :=
  if m.items.any (fun x => x.key == it.key) && !replace then
    .error (.duplicateKey it.key)
  else
    .ok (m.upsert it)

/-- Modelled from the spec: the closed custom-metadata key vocabulary
(spec 3 "Custom Metadata", 4.1). -/
def allowedCustomKeys : List Str :=
  ["CONDA_ENVIRONMENT".data, "ENVIRONMENT_TYPE".data, "SLUG_NAME".data,
   "CONDA_ENVIRONMENT_PATH".data, "MODEL_ARTIFACTS".data,
   "MODEL_SERIALIZATION_FORMAT".data, "CLIENT_LIBRARY".data,
   "TRAINING_DATASET".data, "VALIDATION_DATASET".data,
   "TRAINING_DATASET_SIZE".data, "VALIDATION_DATASET_SIZE".data]

/-- Modelled from the spec: the closed taxonomy-metadata key vocabulary
(spec 3 "Taxonomy Metadata"). -/
def allowedTaxonomyKeys : List Str :=
  ["USE_CASE_TYPE".data, "FRAMEWORK".data, "FRAMEWORK_VERSION".data,
   "ALGORITHM".data, "HYPERPARAMETERS".data]

/-- The `METADATA_SIZE_LIMIT` of `ads.common.model_metadata`, modelled from
the spec's 32,000-byte limit. -/
def METADATA_SIZE_LIMIT : Nat := 32000

/-- Errors raised on the `ModelArtifact.save` path
(`ads/common/model_artifact.py`).  `missingProjectId` /
`missingCompartmentId` are the two `ValueError`s of lines 797-801 (the
spec's `MissingIdentifier`); `changesNotCommitted` is the
`ChangesNotCommitted` exception (the spec's `UncommittedChanges`);
`metadataSizeTooLarge` is `MetadataSizeTooLarge` (the spec's
`MetadataTooLarge`). -/
inductive SaveErr where
  | typeErrorTimeout
  | changesNotCommitted (path : Str)
  | missingProjectId
  | missingCompartmentId
  | typeErrorFreeformTags
  | typeErrorDefinedTags
  | invalidMetadataKey (key : Str)
  | metadataSizeTooLarge (totalSize : Nat)
  | schemaInvalid
  | introspectionNotPassed
deriving DecidableEq

/-- Modelled from the spec, 4.1: `validate()` fails with
`InvalidMetadataKey` for keys outside the closed enumeration. -/
def validateKeys (allowed : List Str) (m : MetadataStore) : Except SaveErr Unit :=
  match m.items.find? (fun it => !allowed.contains it.key) with
  | some it => .error (.invalidMetadataKey it.key)
  | none => .ok ()

/-- Embeds `ModelArtifact._validate_metadata` (model_artifact.py lines
887-893): validate both stores' keys, then fail with
`MetadataSizeTooLarge(total_size)` when the combined size exceeds
`METADATA_SIZE_LIMIT`. -/
def validate_metadata (custom taxonomy : MetadataStore) : Except SaveErr Unit :=
  match validateKeys allowedCustomKeys custom with
  | .error e => .error e
  | .ok _ =>
    match validateKeys allowedTaxonomyKeys taxonomy with
    | .error e => .error e
    | .ok _ =>
      let total_size := custom.size + taxonomy.size
      if total_size > METADATA_SIZE_LIMIT then
        .error (.metadataSizeTooLarge total_size)
      else
        .ok ()

/-! ## Serialization-format detection

`ModelArtifact._extract_model_serialization_format` (lines 602-604) is
`os.path.splitext(model_file_name)[1][1:]`.  `os.path.splitext` (Python
standard library, posixpath) returns the extension starting at the last
`'.'` that lies after the last `'/'`, provided the basename has at
least one non-dot character before that dot; otherwise the extension is
empty. -/

/-- The extension component of `os.path.splitext` (Python standard
library semantics): the suffix from the last `'.'` after the last
`'/'`, empty when the basename has no dot or only leading dots. -/
def splitextExt (p : Str) : Str :=
  let b := (p.reverse.takeWhile (fun c => !(c == '/'))).reverse
  let afterDot := b.reverse.takeWhile (fun c => !(c == '.'))
  if afterDot.length = b.length then
    []
  else
    let stem := b.take (b.length - afterDot.length - 1)
    if stem.any (fun c => !(c == '.')) then '.' :: afterDot.reverse else []

/-- Embeds `ModelArtifact._extract_model_serialization_format(model_file_name)`:
`os.path.splitext(model_file_name)[1][1:]`. -/
def extract_model_serialization_format (model_file_name : Str) : Str :=
  (splitextExt model_file_name).drop 1

/-! ## Reload: descriptor format generations

`ModelArtifact.reload` (lines 529-576), restricted to the descriptor
fields it assigns (`self.version`, `self.VM_ID`, `self.conda_env`).
The YAML documents are embedded as records of the fields the code
reads; a `KeyError` on a missing nested key corresponds to `none`. -/

/-- The fields `reload` reads from `runtime.yaml`:
`MODEL_ARTIFACT_VERSION`, `MODEL_PROVENANCE.VM_IMAGE_INTERNAL_ID`
(`none` when the key path is absent, the `KeyError` branch) and
`MODEL_PROVENANCE.TRAINING_CONDA_ENV.TRAINING_ENV_SLUG` (likewise). -/
structure RuntimeDoc where
  modelArtifactVersion : Str
  vmImageInternalId : Option Str
  trainingEnvSlug : Option Str
deriving DecidableEq

/-- The field `reload` reads from the legacy `ds-runtime.yaml`: the
flat `conda-env` key. -/
structure DsRuntimeDoc where
  condaEnv : Str
deriving DecidableEq

/-- The bundle fields assigned by `reload`. -/
structure ReloadResult where
  version : Str
  vmId : Option Str
  condaEnv : Option Str
deriving DecidableEq

/-- Embeds `ModelArtifact.reload` (lines 544-576), descriptor part: dispatch on
which descriptor file exists in the artifact directory. -/
def reload_descriptor (runtimeYaml : Option RuntimeDoc) (dsRuntimeYaml : Option DsRuntimeDoc) :
    ReloadResult :=
  match runtimeYaml with
  | some doc =>
    { version := doc.modelArtifactVersion
      vmId := doc.vmImageInternalId
      condaEnv := doc.trainingEnvSlug }
  | none =>
    match dsRuntimeYaml with
    | some doc =>
      { version := "1.0".data, vmId := none, condaEnv := some doc.condaEnv }
    | none =>
      { version := "0.0".data, vmId := some "UNKNOWN".data, condaEnv := some "base".data }

/-! ## Verify: sys.path restoration

`ModelArtifact.verify` (lines 606-674).  The user handler (`func.py`)
is an oracle: it receives the module search path in effect during the
call and the encoded input data, and returns an outcome together with
whatever value it left in `sys.path` (the code comments note `func.py`
may mess with it).  The `finally` block restores the copy taken before
the insertion. -/

/-- The three reachable input kinds of `verify` (str / dict / stream;
the `TypeError` branch is unreachable because
`isinstance(type(input_data), type(BytesIO))` holds for every object),
each carrying its UTF-8 encoded payload. -/
inductive VerifyInput where
  | jsonStr (payload : Str)
  | dictObj (payload : Str)
  | byteStream (payload : Str)
deriving DecidableEq

/-- Outcome of running the user handler `func.handler`. -/
inductive HandlerOutcome where
  | success (body : Str)
  | raises
deriving DecidableEq

/-- Error surfaced by the embedded `verify`. -/
inductive VerifyErr where
  | handlerRaised
deriving DecidableEq

/-- Python `self.version.split(".")[0]`. -/
def version_major (v : Str) : Str :=
  v.takeWhile (fun c => !(c == '.'))

/-- Embeds `ModelArtifact.verify` (lines 606-674): copy `sys.path`, insert the
artifact directory (or its `fn-model` subdirectory for legacy v0/v1
bundles) at the front, run the handler, and restore the copy in the
`finally` block whether or not the handler raised. -/
def verify (input : VerifyInput) (sys_path : List Str) (version artifact_dir : Str)
    (handler : List Str → Str → HandlerOutcome × List Str) :
    Except VerifyErr Str × List Str :=
  let data : Str :=
    match input with
    | .jsonStr payload => payload
    | .dictObj payload => payload
    | .byteStream payload => payload
  let saved := sys_path
  let inserted :=
    if !(version_major version == "0".data) && !(version_major version == "1".data) then
      artifact_dir :: sys_path
    else
      (artifact_dir ++ "/fn-model".data) :: sys_path
  ((match (handler inserted data).1 with
    | .success body => .ok body
    | .raises => .error .handlerRaised),
   saved)

/-! ## File enumeration with ignore patterns

`ModelArtifact._get_files` (lines 993-1023).  The walk over the
artifact directory is an input: the list of entry paths relative to the
artifact root, exactly as `os.walk` would join them.  A pattern is
applied through `re.search(fnmatch.translate("/" + pattern.strip()),
full_path)`; since `fnmatch.translate` anchors the pattern at the end
of the string and `re.search` scans all start positions, this holds iff
the glob matches some suffix of the full path.  `fnmatch` glob
semantics for the pattern characters in use: `*` matches any character
sequence (including `/`), `?` matches one character, every other
character matches itself (bracket classes are not modelled; no pattern
in the spec or tests uses them). -/

/-- Whitespace in the sense of Python's `str.strip`. -/
def isPyWs (c : Char) : Bool :=
  c == ' ' || c == '\t' || c == '\n' || c == '\r'

/-- Python `str.strip()`: drop whitespace from both ends. -/
def pstrip (s : Str) : Str :=
  ((s.dropWhile isPyWs).reverse.dropWhile isPyWs).reverse

/-- Python `str.split(sep)` for a one-character separator: never
returns an empty list, and an empty string yields `[""]`. -/
def splitOnChar (sep : Char) : Str → List Str
  | [] => [[]]
  | c :: rest =>
    let r := splitOnChar sep rest
    if c == sep then
      [] :: r
    else
      match r with
      | [] => [[c]]
      | h :: t => (c :: h) :: t

/-- Python `fnmatch` glob matching of a whole string (patterns using `*`, `?`
and literal characters). -/
def globMatch : Str → Str → Bool
  | [], s => s.isEmpty
  | c :: p, s =>
    if c == '*' then
      s.tails.any (fun t => globMatch p t)
    else if c == '?' then
      match s with
      | [] => false
      | _ :: s' => globMatch p s'
    else
      match s with
      | [] => false
      | c' :: s' => c == c' && globMatch p s'

/-- Python `re.search` of the end-anchored `fnmatch.translate` regex: the glob
matches some suffix of the string. -/
def searchGlob (p s : Str) : Bool :=
  s.tails.any (fun t => globMatch p t)

/-- One iteration of the pattern loop of `_get_files` (lines
1010-1020): skip `#`-prefixed and blank patterns, rewrite a trailing
`/` to a `*` wildcard, and keep the file names the translated pattern
does not match. -/
def applyIgnorePattern (file_names : List Str) (ignore : Str) : List Str :=
  if ignore.head? == some '#' || pstrip ignore == ([] : Str) then
    file_names
  else
    let ignore' := if ignore.getLast? == some '/' then ignore.dropLast ++ ['*'] else ignore
    file_names.filter (fun f => !searchGlob ('/' :: pstrip ignore') f)

/-- Embeds `ModelArtifact._get_files` (lines 993-1023): read the ignore
patterns from `.model-ignore` when present (`none` models the absent
file), join each walked entry under the artifact directory, apply each
pattern in turn, and strip the `artifact_dir + "/"` prefix from the
survivors. -/
def get_files (artifact_dir : Str) (walk_rels : List Str) (ignore_content : Option Str) :
    List Str :=
  let ignore_patterns :=
    match ignore_content with
    | some c => splitOnChar '\n' (pstrip c)
    | none => []
  let file_names := walk_rels.map (fun r => artifact_dir ++ '/' :: r)
  let remaining := ignore_patterns.foldl applyIgnorePattern file_names
  remaining.map (fun f => f.drop (artifact_dir.length + 1))

/-! ## Path-cleanliness check and `save`

`ModelArtifact._assert_path_not_dirty` (lines 920-931),
`ModelArtifact._training_code_info` (lines 895-918) and
`ModelArtifact.save` (lines 676-873).  Paths are absolute, normalized
strings; `os.path.commonpath([a, b]) == b` is embedded as "the `/`
components of `b` are a prefix of those of `a`", and
`os.path.relpath(a, b)` under that condition as dropping `b`'s
components.  The git repository (GitPython) is a collaborator: its
working directory, `is_dirty(path=...)` predicate and untracked-file
list are state. -/

/-- The `/`-separated components of a normalized path. -/
def components (p : Str) : List Str :=
  splitOnChar '/' p

/-- The enclosing git repository as seen by the code: working
directory, the `is_dirty(path=rel)` predicate, and `untracked_files`
(paths relative to the working directory). -/
structure RepoState where
  workingDir : Str
  isDirty : List Str → Bool
  untrackedFiles : List Str

/-- Embeds `ModelArtifact._assert_path_not_dirty` (lines 920-931): when a
repository encloses `path` and pending changes are not ignored, raise
`ChangesNotCommitted(path)` if the relative path is dirty or some
untracked file lies under it. -/
def assert_path_not_dirty (path : Str) (repo : Option RepoState) (ignore : Bool) :
    Except SaveErr Unit :=
  match repo with
  | none => .ok ()
  | some r =>
    if ignore then
      .ok ()
    else
      let pc := components path
      let wc := components r.workingDir
      if wc.isPrefixOf pc then
        let rel := pc.drop wc.length
        if r.isDirty rel
            || r.untrackedFiles.any (fun u => rel.isPrefixOf (components u)) then
          .error (.changesNotCommitted path)
        else
          .ok ()
      else
        .ok ()

/-- Process-wide defaults read by `save` (`ads.config`): `PROJECT_OCID`
and `NB_SESSION_COMPARTMENT_OCID`. -/
structure ConfigEnv where
  PROJECT_OCID : Option Str
  NB_SESSION_COMPARTMENT_OCID : Option Str

/-- The caller-supplied arguments of `save` that drive the pre-publish
checklist.  The dynamic `isinstance` checks of Python are carried as
`...Given` / `...IsInt` / `...IsDict` flags. -/
structure SaveArgs where
  projectId : Option Str
  compartmentId : Option Str
  trainingScriptPath : Option Str
  scriptExists : Bool
  ignorePendingChanges : Bool
  timeoutGiven : Bool
  timeoutIsInt : Bool
  freeformTagsGiven : Bool
  freeformTagsIsDict : Bool
  definedTagsGiven : Bool
  definedTagsIsDict : Bool
  ignoreIntrospection : Bool

/-- The artifact-side state `save` consults: the artifact directory and
its enclosing repository, both metadata stores, the directory walk and
`.model-ignore` content feeding `_get_files`, and the outcomes of the
schema validation and of introspection. -/
structure ArtifactState where
  artifactDir : Str
  repo : Option RepoState
  metadataCustom : MetadataStore
  metadataTaxonomy : MetadataStore
  walkRels : List Str
  ignoreContent : Option Str
  schemaValid : Bool
  introspectionPassed : Bool

/-- Outcome of the remote catalog upload (`ModelCatalog.upload_model`):
a model id, or an `oci.exceptions.RequestException` carrying its
message. -/
inductive UploadOutcome where
  | success (modelId : Nat)
  | requestException (msg : Str)
deriving DecidableEq

/-- Observable events of a `save` run: the remote catalog call and the
logged retry advice for a write timeout. -/
inductive SaveEvent where
  | remoteCall
  | logTimeoutAdvice
deriving DecidableEq

/-- Python's substring test `needle in s`: some suffix of `s` starts
with `needle`. -/
def containsSub (needle s : Str) : Bool :=
  s.tails.any (fun t => needle.isPrefixOf t)

/-- The training-script part of `ModelArtifact._training_code_info`
(lines 903-913): when a training script path is supplied and exists,
assert it is not dirty; a supplied-but-missing script only logs a
warning. -/
def script_path_check (art : ArtifactState) (args : SaveArgs) : Except SaveErr Unit :=
  match args.trainingScriptPath with
  | some sp =>
    if args.scriptExists then
      assert_path_not_dirty sp art.repo args.ignorePendingChanges
    else
      .ok ()
  | none => .ok ()

/-- The check part of `ModelArtifact._training_code_info` (lines
895-918): the training-script check, then the artifact-directory
check. -/
def training_code_checks (art : ArtifactState) (args : SaveArgs) : Except SaveErr Unit :=
  match script_path_check art args with
  | .error e => .error e
  | .ok _ => assert_path_not_dirty art.artifactDir art.repo args.ignorePendingChanges

/-- Modelled from the spec, 4.5: `textwrap.shorten(text, 255,
placeholder="...")` — the file list is "shortened to 255 chars with an
ellipsis". -/
def shorten255 (s : Str) : Str :=
  if s.length ≤ 255 then s else s.take 252 ++ "...".data

/-- The `MODEL_ARTIFACTS` value written by `save` (lines 807-817):
`", ".join(self._get_files())` shortened to 255 characters. -/
def modelArtifactsValue (art : ArtifactState) : Str :=
  shorten255 (List.intercalate ", ".data (get_files art.artifactDir art.walkRels art.ignoreContent))

/-- The custom-metadata store after `save` upserts the
`MODEL_ARTIFACTS` entry (lines 807-817, `_add(..., replace=True)`). -/
def customAfterAdd (art : ArtifactState) : MetadataStore :=
  art.metadataCustom.upsert
    { key := "MODEL_ARTIFACTS".data, entrySize := (modelArtifactsValue art).length }

/-- Embeds `ModelArtifact.save` (lines 676-873) as a pure checklist over the
embedded state: the timeout type check; the pending-changes checks of
`_training_code_info`; the `project_id` / `compartment_id` checks
against the process-wide defaults; the `MODEL_ARTIFACTS` upsert; the
tag type checks; `_validate_metadata`; `_validate_schema`;
introspection; and finally the catalog upload, whose
`RequestException` is caught — with the retry advice logged when the
message reports a write timeout — and never re-raised.  The event
trace records the remote call and that log line. -/
def save (env : ConfigEnv) (art : ArtifactState) (args : SaveArgs) (upload : UploadOutcome) :
    Except SaveErr (Option Nat) × List SaveEvent :=
  if args.timeoutGiven && !args.timeoutIsInt then
    (.error .typeErrorTimeout, [])
  else
    match training_code_checks art args with
    | .error e => (.error e, [])
    | .ok _ =>
      if args.projectId.isNone && env.PROJECT_OCID.isNone then
        (.error .missingProjectId, [])
      else if args.compartmentId.isNone && env.NB_SESSION_COMPARTMENT_OCID.isNone then
        (.error .missingCompartmentId, [])
      else
        let custom := customAfterAdd art
        if args.freeformTagsGiven && !args.freeformTagsIsDict then
          (.error .typeErrorFreeformTags, [])
        else if args.definedTagsGiven && !args.definedTagsIsDict then
          (.error .typeErrorDefinedTags, [])
        else
          match validate_metadata custom art.metadataTaxonomy with
          | .error e => (.error e, [])
          | .ok _ =>
            if !art.schemaValid then
              (.error .schemaInvalid, [])
            else if !args.ignoreIntrospection && !art.introspectionPassed then
              (.error .introspectionNotPassed, [])
            else
              match upload with
              | .success modelId => (.ok (some modelId), [.remoteCall])
              | .requestException msg =>
                if containsSub "The write operation timed out".data msg then
                  (.ok none, [.remoteCall, .logTimeoutAdvice])
                else
                  (.ok none, [.remoteCall])

/-! ## Runtime-descriptor generation

`ModelArtifact._generate_runtime_yaml` (lines 421-527), from the point
where the training-environment details have been fetched (the
`TrainingCondaEnv` record) to the completeness checks guarding the
serialized document.  Unset / empty pjs attributes are `none`; the
remote object-storage lookup of the conda pack's python version is an
oracle. -/

/-- The `TRAINING_CONDA_ENV` fields produced by
`__fetch_training_env_details`. -/
structure TrainingEnvInfo where
  slug : Option Str
  envType : Option Str
  path : Option Str
  pythonVersion : Option Str
deriving DecidableEq

/-- The `INFERENCE_CONDA_ENV` fields of the descriptor being built. -/
structure InferenceInfo where
  slug : Option Str
  envType : Option Str
  path : Option Str
  pythonVersion : Option Str
deriving DecidableEq

/-- The record `ns.InferenceCondaEnv()` with nothing assigned. -/
def emptyInferenceInfo : InferenceInfo :=
  { slug := none, envType := none, path := none, pythonVersion := none }

/-- Outcome of the object-storage `get_object` lookup of the conda
pack's manifest metadata (lines 458-467). -/
inductive CondaLookup where
  | found (pythonVersion : Str)
  | failed
deriving DecidableEq

/-- Errors raised by `_generate_runtime_yaml`: the missing python
version (lines 471-474), the possibly-stale service environment (lines
494-504) and the missing inference conda environment (lines
506-511). -/
inductive RtErr where
  | pythonVersionNotSpecified
  | staleServiceEnv
  | missingCondaInfo
deriving DecidableEq

/-- Warnings `_generate_runtime_yaml` logs instead of raising when
`ignore_deployment_error` is set. -/
inductive RtWarning where
  | staleServiceEnv
  | missingCondaInfo
deriving DecidableEq

/-- Lines 439-488: populate the `INFERENCE_CONDA_ENV` record.  With no
`inference_conda_env` override, copy the training environment when both
its type and path are known, else leave everything unset.  With an
`oci://` override, set the path from it and resolve the python version
from the remote lookup, the explicit `inference_python_version`, or the
training python version — raising when none is available.  A non-`oci`
override leaves the record unset. -/
def resolveInferenceInfo (training : TrainingEnvInfo) (inference_conda_env : Option Str)
    (inference_python_version : Option Str) (lookup : CondaLookup) :
    Except RtErr InferenceInfo :=
  match inference_conda_env with
  | none =>
    if training.envType.isSome && training.path.isSome then
      .ok { slug := training.slug, envType := training.envType, path := training.path,
            pythonVersion := training.pythonVersion }
    else
      .ok emptyInferenceInfo
  | some conda =>
    if "oci://".data.isPrefixOf conda then
      match lookup with
      | .found pv => .ok { emptyInferenceInfo with path := some conda, pythonVersion := some pv }
      | .failed =>
        match inference_python_version with
        | some pv =>
          .ok { emptyInferenceInfo with path := some conda, pythonVersion := some pv }
        | none =>
          match training.pythonVersion with
          | some tpv =>
            .ok { emptyInferenceInfo with path := some conda, pythonVersion := some tpv }
          | none => .error .pythonVersionNotSpecified
    else
      .ok emptyInferenceInfo

/-- The generated document: the resolved inference record, whether a
`MODEL_DEPLOYMENT` section is present (lines 489-492, 513-523), and the
warnings logged along the way. -/
structure RuntimeGenResult where
  inferenceInfo : InferenceInfo
  hasModelDeployment : Bool
  warnings : List RtWarning
deriving DecidableEq

/-- Embeds `ModelArtifact._generate_runtime_yaml` (lines 439-527): resolve the
inference record, then run the two completeness checks in source
order — the possibly-stale service environment (lines 494-504) and the
missing inference conda environment (lines 506-511) — each fatal unless
`ignore_deployment_error` degrades it to a logged warning. -/
def generate_runtime_yaml (training : TrainingEnvInfo) (inference_conda_env : Option Str)
    (inference_python_version : Option Str) (data_science_env ignore_deployment_error : Bool)
    (lookup : CondaLookup) : Except RtErr RuntimeGenResult :=
  match resolveInferenceInfo training inference_conda_env inference_python_version lookup with
  | .error e => .error e
  | .ok inf =>
    let staleCond := inference_conda_env.isNone && !data_science_env
      && (inf.envType == some "data_science".data) && (training.path == inf.path)
    if staleCond && !ignore_deployment_error then
      .error .staleServiceEnv
    else
      let missingCond := inf.path.isNone && inference_conda_env.isNone
      if missingCond && !ignore_deployment_error then
        .error .missingCondaInfo
      else
        .ok { inferenceInfo := inf
              hasModelDeployment := inf.path.isSome
              warnings :=
                (if staleCond then [RtWarning.staleServiceEnv] else [])
                  ++ (if missingCond then [RtWarning.missingCondaInfo] else []) }

/-! ## Theorems -/

/-- C1: for every artifact whose custom and taxonomy metadata pass the
closed-key check and have a combined serialized size strictly greater
than the metadata size limit, `_validate_metadata()` fails with
`MetadataSizeTooLarge` carrying the offending total size; and the
overflow is reported at validate-time, not at add-time — `add` with
`replace` never fails, whatever the entry sizes. -/
theorem validate_metadata_size_exceeded (custom taxonomy : MetadataStore)
    (hc : validateKeys allowedCustomKeys custom = .ok ())
    (ht : validateKeys allowedTaxonomyKeys taxonomy = .ok ())
    (hsize : custom.size + taxonomy.size > METADATA_SIZE_LIMIT) :
    validate_metadata custom taxonomy
      = .error (.metadataSizeTooLarge (custom.size + taxonomy.size))
    ∧ ∀ (m : MetadataStore) (it : MetadataItem), m.addItem it true = .ok (m.upsert it) := by
  constructor
  · unfold validate_metadata
    rw [hc, ht]
    simp [hsize]
  · intro m it
    unfold MetadataStore.addItem
    simp

/-- A custom-metadata store whose entries total 35,000 bytes. -/
def wCustom35000 : MetadataStore :=
  ⟨[{ key := "TRAINING_DATASET".data, entrySize := 20000 },
    { key := "VALIDATION_DATASET".data, entrySize := 15000 }]⟩

/-- An empty taxonomy-metadata store. -/
def wTaxonomyEmpty : MetadataStore := ⟨[]⟩

/-- Witness for C1: entries totaling 35,000 bytes against the
32,000-byte limit make `_validate_metadata()` fail with
`MetadataSizeTooLarge(35000)`. -/
theorem validate_metadata_size_exceeded_witness :
    validate_metadata wCustom35000 wTaxonomyEmpty = .error (.metadataSizeTooLarge 35000)
    ∧ wCustom35000.addItem { key := "TRAINING_DATASET".data, entrySize := 99999 } true
        = .ok (wCustom35000.upsert { key := "TRAINING_DATASET".data, entrySize := 99999 }) := by
  have h := validate_metadata_size_exceeded wCustom35000 wTaxonomyEmpty rfl rfl (by decide)
  exact ⟨h.1, h.2 wCustom35000 { key := "TRAINING_DATASET".data, entrySize := 99999 }⟩

/-- C6: `reload()` distinguishes exactly three descriptor format
generations — with `runtime.yaml` present the version comes from its
`MODEL_ARTIFACT_VERSION` field; otherwise with `ds-runtime.yaml`
present the version is `"1.0"` and the conda environment is the flat
`conda-env` key; with neither file, the synthetic defaults
`version="0.0"`, VM id `"UNKNOWN"` and conda env `"base"`. -/
theorem reload_descriptor_generations :
    (∀ (doc : RuntimeDoc) (ds : Option DsRuntimeDoc),
      (reload_descriptor (some doc) ds).version = doc.modelArtifactVersion)
    ∧ (∀ ds : DsRuntimeDoc,
      reload_descriptor none (some ds)
        = { version := "1.0".data, vmId := none, condaEnv := some ds.condaEnv })
    ∧ reload_descriptor none none
        = { version := "0.0".data, vmId := some "UNKNOWN".data,
            condaEnv := some "base".data } := by
  refine ⟨fun doc ds => rfl, fun ds => rfl, rfl⟩

/-- C10: `verify(input_data)` leaves `sys.path` exactly as it found it,
whatever the input kind, the bundle version, and whether the user
handler returns normally, raises, or itself rewrites `sys.path`: the
inserted entry is always removed by the `finally` restore. -/
theorem verify_restores_sys_path (input : VerifyInput) (sys_path : List Str)
    (version artifact_dir : Str)
    (handler : List Str → Str → HandlerOutcome × List Str) :
    (verify input sys_path version artifact_dir handler).2 = sys_path := by
  cases input <;> rfl

/-- Counterexample for C8: the serialization-format detector does not
lower-case the extension — on `"model.ONNX"` it returns `"ONNX"`, not
the lower-cased `"onnx"` the claim asserts. -/
theorem extract_format_not_lowercased :
    extract_model_serialization_format "model.ONNX".data = "ONNX".data
    ∧ ("ONNX".data.map Char.toLower = "onnx".data)
    ∧ extract_model_serialization_format "model.ONNX".data ≠ "onnx".data := by
  refine ⟨by decide, by decide, by decide⟩

/-- C8 as amended: the detector is a pure function returning the file
extension without the leading dot, in its original case (not
lower-cased): for every basename with some non-dot character and every
dot-free, slash-free extension, `name.EXT` maps to `EXT` verbatim. -/
theorem extract_format_extension (base ext : Str)
    (hb : '/' ∉ base) (he : '/' ∉ ext) (hd : '.' ∉ ext)
    (hnd : ∃ c ∈ base, c ≠ '.') :
    extract_model_serialization_format (base ++ '.' :: ext) = ext := by
  have hrev : (base ++ '.' :: ext).reverse
      = ext.reverse ++ '.' :: base.reverse := by
    simp
  have hball : ∀ c ∈ (base ++ '.' :: ext).reverse, (!(c == '/')) = true := by
    intro c hc
    rw [List.mem_reverse] at hc
    rcases List.mem_append.mp hc with h | h
    · simp only [Bool.not_eq_true', beq_eq_false_iff_ne]
      exact fun hcc => hb (hcc ▸ h)
    · rcases List.mem_cons.mp h with h | h
      · simp [h]
      · simp only [Bool.not_eq_true', beq_eq_false_iff_ne]
        exact fun hcc => he (hcc ▸ h)
  have hbeq : ((base ++ '.' :: ext).reverse.takeWhile (fun c => !(c == '/'))).reverse
      = base ++ '.' :: ext := by
    rw [List.takeWhile_eq_self_iff.mpr hball, List.reverse_reverse]
  have hextall : ∀ c ∈ ext.reverse, (fun c => !(c == '.')) c = true := by
    intro c hc
    rw [List.mem_reverse] at hc
    simp only [Bool.not_eq_true', beq_eq_false_iff_ne]
    exact fun hcc => hd (hcc ▸ hc)
  have hafter : (base ++ '.' :: ext).reverse.takeWhile (fun c => !(c == '.'))
      = ext.reverse := by
    rw [hrev, List.takeWhile_append_of_pos hextall]
    simp
  unfold extract_model_serialization_format splitextExt
  simp only [hbeq, hafter]
  rw [if_neg (by simp; omega)]
  have hlen : (base ++ '.' :: ext).length - ext.reverse.length - 1 = base.length := by
    simp; omega
  rw [hlen, List.take_left' rfl]
  rw [if_pos]
  · simp
  · rw [List.any_eq_true]
    obtain ⟨c, hc, hcne⟩ := hnd
    exact ⟨c, hc, by simpa using hcne⟩

/-- Witness for C8's amended theorem: `"model.ONNX"` yields `"ONNX"`. -/
theorem extract_format_extension_witness :
    extract_model_serialization_format ("model".data ++ '.' :: "ONNX".data) = "ONNX".data :=
  extract_format_extension "model".data "ONNX".data (by decide) (by decide) (by decide)
    ⟨'m', by decide, by decide⟩

/-- C2: whenever `save()` passes its earlier timeout and
pending-changes checks and either `project_id` or `compartment_id`
resolves neither from the argument nor from the process-wide default,
`save()` fails with the corresponding missing-identifier `ValueError`
and the event trace is empty — no remote call (catalog upload or any
other network operation) is attempted. -/
theorem save_missing_identifier (env : ConfigEnv) (art : ArtifactState) (args : SaveArgs)
    (upload : UploadOutcome)
    (htime : (args.timeoutGiven && !args.timeoutIsInt) = false)
    (hchecks : training_code_checks art args = .ok ())
    (hmiss : (args.projectId = none ∧ env.PROJECT_OCID = none)
      ∨ (args.compartmentId = none ∧ env.NB_SESSION_COMPARTMENT_OCID = none)) :
    (save env art args upload).2 = []
    ∧ ((save env art args upload).1 = .error .missingProjectId
       ∨ (save env art args upload).1 = .error .missingCompartmentId) := by
  rcases hmiss with ⟨h1, h2⟩ | ⟨h1, h2⟩
  · simp [save, htime, hchecks, h1, h2]
  · by_cases hp : (args.projectId.isNone && env.PROJECT_OCID.isNone) = true
    · simp [save, htime, hchecks, hp]
    · simp [save, htime, hchecks, hp, h1, h2]

/-- Process-wide defaults with neither `PROJECT_OCID` nor
`NB_SESSION_COMPARTMENT_OCID` configured. -/
def wEnvNone : ConfigEnv :=
  { PROJECT_OCID := none, NB_SESSION_COMPARTMENT_OCID := none }

/-- A small artifact directory outside any git repository. -/
def wArtClean : ArtifactState :=
  { artifactDir := "/home/datascience/model".data
    repo := none
    metadataCustom := ⟨[]⟩
    metadataTaxonomy := ⟨[]⟩
    walkRels := ["score.py".data, "runtime.yaml".data]
    ignoreContent := none
    schemaValid := true
    introspectionPassed := true }

/-- Arguments of `save` with no `project_id`, an explicit
`compartment_id`, and every optional check-relevant input at its
benign default. -/
def wArgsBase : SaveArgs :=
  { projectId := none
    compartmentId := some "ocid1.compartment.oc1..xyz".data
    trainingScriptPath := none
    scriptExists := false
    ignorePendingChanges := false
    timeoutGiven := false
    timeoutIsInt := true
    freeformTagsGiven := false
    freeformTagsIsDict := true
    definedTagsGiven := false
    definedTagsIsDict := true
    ignoreIntrospection := true }

/-- Witness for C2: `project_id=None` with no process-wide default
makes `save()` fail with the missing-identifier error and an empty
event trace. -/
theorem save_missing_identifier_witness :
    (save wEnvNone wArtClean wArgsBase (.success 1)).2 = []
    ∧ ((save wEnvNone wArtClean wArgsBase (.success 1)).1 = .error .missingProjectId
       ∨ (save wEnvNone wArtClean wArgsBase (.success 1)).1 = .error .missingCompartmentId) :=
  save_missing_identifier wEnvNone wArtClean wArgsBase (.success 1) rfl rfl
    (Or.inl ⟨rfl, rfl⟩)

/-- C4: for every `save()` call where the artifact directory, or a
supplied training script path, lies inside a repository whose state is
dirty (or has untracked files) under that path and
`ignore_pending_changes=False`, `save()` fails with
`ChangesNotCommitted` carrying the violating path — the script path
when the supplied script is dirty, the artifact directory when the
script check passes and the artifact directory is dirty; the identical
call with `ignore_pending_changes=True` never raises that condition
and succeeds when the remaining checks pass, whatever the script
path. -/
theorem save_pending_changes (env : ConfigEnv) (art : ArtifactState) (args : SaveArgs)
    (upload : UploadOutcome) (modelId : Nat) (r : RepoState)
    (htime : (args.timeoutGiven && !args.timeoutIsInt) = false)
    (hrepo : art.repo = some r)
    (hproj : (args.projectId.isNone && env.PROJECT_OCID.isNone) = false)
    (hcomp : (args.compartmentId.isNone && env.NB_SESSION_COMPARTMENT_OCID.isNone) = false)
    (hff : (args.freeformTagsGiven && !args.freeformTagsIsDict) = false)
    (hdf : (args.definedTagsGiven && !args.definedTagsIsDict) = false)
    (hmeta : validate_metadata (customAfterAdd art) art.metadataTaxonomy = .ok ())
    (hschema : art.schemaValid = true)
    (hintro : (!args.ignoreIntrospection && !art.introspectionPassed) = false) :
    (∀ sp, args.trainingScriptPath = some sp → args.scriptExists = true →
      (components r.workingDir).isPrefixOf (components sp) = true →
      (r.isDirty ((components sp).drop (components r.workingDir).length)
        || r.untrackedFiles.any (fun u =>
            ((components sp).drop (components r.workingDir).length).isPrefixOf
              (components u))) = true →
      save env art { args with ignorePendingChanges := false } upload
        = (.error (.changesNotCommitted sp), []))
    ∧ (script_path_check art { args with ignorePendingChanges := false } = .ok () →
      (components r.workingDir).isPrefixOf (components art.artifactDir) = true →
      (r.isDirty ((components art.artifactDir).drop (components r.workingDir).length)
        || r.untrackedFiles.any (fun u =>
            ((components art.artifactDir).drop (components r.workingDir).length).isPrefixOf
              (components u))) = true →
      save env art { args with ignorePendingChanges := false } upload
        = (.error (.changesNotCommitted art.artifactDir), []))
    ∧ save env art { args with ignorePendingChanges := true } (.success modelId)
      = (.ok (some modelId), [.remoteCall]) := by
  refine ⟨?_, ?_, ?_⟩
  · intro sp hsp hexists hin hdirty
    have hch : training_code_checks art { args with ignorePendingChanges := false }
        = .error (.changesNotCommitted sp) := by
      simp [training_code_checks, script_path_check, assert_path_not_dirty, hsp, hexists,
        hrepo, hin, hdirty]
    simp [save, htime, hch]
  · intro hsok hin hdirty
    have hch : training_code_checks art { args with ignorePendingChanges := false }
        = .error (.changesNotCommitted art.artifactDir) := by
      unfold training_code_checks
      rw [hsok]
      simp [assert_path_not_dirty, hrepo, hin, hdirty]
    simp [save, htime, hch]
  · have hassert : ∀ p, assert_path_not_dirty p art.repo true = .ok () := by
      intro p
      simp [assert_path_not_dirty, hrepo]
    have hch : training_code_checks art { args with ignorePendingChanges := true }
        = .ok () := by
      unfold training_code_checks script_path_check
      cases hsp : args.trainingScriptPath with
      | none => simp [hsp, hassert]
      | some sp => simp [hsp, hassert]
    simp [save, htime, hch, hproj, hcomp, hff, hdf, hmeta, hschema, hintro]

/-- A repository enclosing the artifact directory whose state under any
path is dirty. -/
def wRepoDirty : RepoState :=
  { workingDir := "/home/datascience".data
    isDirty := fun _ => true
    untrackedFiles := [] }

/-- The artifact `wArtClean` placed inside the dirty repository. -/
def wArtDirty : ArtifactState :=
  { wArtClean with repo := some wRepoDirty }

/-- The arguments `wArgsBase` with both identifiers supplied. -/
def wArgsFull : SaveArgs :=
  { wArgsBase with projectId := some "ocid1.datascienceproject.oc1..abc".data }

/-- A training script path inside the dirty repository. -/
def wScriptPath : Str := "/home/datascience/train.py".data

/-- The arguments `wArgsFull` supplying an existing training script. -/
def wArgsScript : SaveArgs :=
  { wArgsFull with trainingScriptPath := some wScriptPath, scriptExists := true }

/-- Witness for C4: a dirty supplied training script makes `save()`
with `ignore_pending_changes=False` fail with `ChangesNotCommitted`
carrying the script path; with no script, the dirty artifact directory
makes it fail carrying the artifact path; and the identical
script-supplying call with `ignore_pending_changes=True` publishes
successfully. -/
theorem save_pending_changes_witness :
    save wEnvNone wArtDirty { wArgsScript with ignorePendingChanges := false } (.success 3)
      = (.error (.changesNotCommitted wScriptPath), [])
    ∧ save wEnvNone wArtDirty { wArgsFull with ignorePendingChanges := false } (.success 3)
      = (.error (.changesNotCommitted wArtDirty.artifactDir), [])
    ∧ save wEnvNone wArtDirty { wArgsScript with ignorePendingChanges := true } (.success 3)
      = (.ok (some 3), [.remoteCall]) :=
  ⟨(save_pending_changes wEnvNone wArtDirty wArgsScript (.success 3) 3 wRepoDirty rfl rfl
      rfl rfl rfl rfl rfl rfl rfl).1 wScriptPath rfl rfl (by decide) rfl,
   (save_pending_changes wEnvNone wArtDirty wArgsFull (.success 3) 3 wRepoDirty rfl rfl
      rfl rfl rfl rfl rfl rfl rfl).2.1 rfl (by decide) rfl,
   (save_pending_changes wEnvNone wArtDirty wArgsScript (.success 3) 3 wRepoDirty rfl rfl
      rfl rfl rfl rfl rfl rfl rfl).2.2⟩

/-- C9: during the publish step a `RequestException` whose message
reports a write timeout is caught inside `save()`: the retry advice
(use a larger timeout) is logged and `save()` returns normally — the
transport error is never re-raised. -/
theorem save_timeout_caught (env : ConfigEnv) (art : ArtifactState) (args : SaveArgs)
    (msg : Str)
    (htime : (args.timeoutGiven && !args.timeoutIsInt) = false)
    (hchecks : training_code_checks art args = .ok ())
    (hproj : (args.projectId.isNone && env.PROJECT_OCID.isNone) = false)
    (hcomp : (args.compartmentId.isNone && env.NB_SESSION_COMPARTMENT_OCID.isNone) = false)
    (hff : (args.freeformTagsGiven && !args.freeformTagsIsDict) = false)
    (hdf : (args.definedTagsGiven && !args.definedTagsIsDict) = false)
    (hmeta : validate_metadata (customAfterAdd art) art.metadataTaxonomy = .ok ())
    (hschema : art.schemaValid = true)
    (hintro : (!args.ignoreIntrospection && !art.introspectionPassed) = false)
    (hmsg : containsSub "The write operation timed out".data msg = true) :
    save env art args (.requestException msg)
      = (.ok none, [.remoteCall, .logTimeoutAdvice]) := by
  simp [save, htime, hchecks, hproj, hcomp, hff, hdf, hmeta, hschema, hintro, hmsg]

/-- Witness for C9: a write-timeout `RequestException` from the catalog
upload leaves `save()` returning normally with the advice logged. -/
theorem save_timeout_caught_witness :
    save wEnvNone wArtClean wArgsFull
        (.requestException "The write operation timed out".data)
      = (.ok none, [.remoteCall, .logTimeoutAdvice]) :=
  save_timeout_caught wEnvNone wArtClean wArgsFull
    "The write operation timed out".data rfl rfl rfl rfl rfl rfl rfl rfl rfl
    (by decide)

/-- An artifact whose custom metadata totals 35,000 bytes (over the
limit) inside an empty directory walk. -/
def wArtOversized : ArtifactState :=
  { wArtClean with metadataCustom := wCustom35000, walkRels := [] }

/-- Counterexample for C3: with metadata totaling 35,000 bytes (over
the 32,000-byte limit) *and* `project_id` missing, `save()` raises the
missing-identifier failure, not `MetadataSizeTooLarge(35000)` — the
required-identifier check runs before metadata validation, contrary to
the claimed checklist order. -/
theorem save_checklist_counterexample :
    (customAfterAdd wArtOversized).size + wArtOversized.metadataTaxonomy.size = 35000
    ∧ METADATA_SIZE_LIMIT = 32000
    ∧ save wEnvNone wArtOversized wArgsBase (.success 1) = (.error .missingProjectId, [])
    ∧ save wEnvNone wArtOversized wArgsBase (.success 1)
        ≠ (.error (.metadataSizeTooLarge 35000), []) := by
  exact ⟨by decide, rfl, rfl, by decide⟩

/-- C3 as amended: `save()` executes the pre-publish checklist in the
order (1) path-cleanliness check, (2) required-identifier check for
`project_id` and `compartment_id`, (3) metadata validation, (4) schema
validation, (5) introspection, (6) publish; in particular, when both
the metadata exceeds the size limit and a required identifier is
missing, the missing-identifier failure is the one raised. -/
theorem save_checklist_order (env : ConfigEnv) (art : ArtifactState) (args : SaveArgs)
    (upload : UploadOutcome)
    (htime : (args.timeoutGiven && !args.timeoutIsInt) = false) :
    (∀ e, training_code_checks art args = .error e →
      save env art args upload = (.error e, []))
    ∧ (training_code_checks art args = .ok () →
      (args.projectId.isNone && env.PROJECT_OCID.isNone) = true →
      save env art args upload = (.error .missingProjectId, []))
    ∧ (training_code_checks art args = .ok () →
      (args.projectId.isNone && env.PROJECT_OCID.isNone) = false →
      (args.compartmentId.isNone && env.NB_SESSION_COMPARTMENT_OCID.isNone) = true →
      save env art args upload = (.error .missingCompartmentId, []))
    ∧ (∀ e, training_code_checks art args = .ok () →
      (args.projectId.isNone && env.PROJECT_OCID.isNone) = false →
      (args.compartmentId.isNone && env.NB_SESSION_COMPARTMENT_OCID.isNone) = false →
      (args.freeformTagsGiven && !args.freeformTagsIsDict) = false →
      (args.definedTagsGiven && !args.definedTagsIsDict) = false →
      validate_metadata (customAfterAdd art) art.metadataTaxonomy = .error e →
      save env art args upload = (.error e, []))
    ∧ (training_code_checks art args = .ok () →
      (args.projectId.isNone && env.PROJECT_OCID.isNone) = false →
      (args.compartmentId.isNone && env.NB_SESSION_COMPARTMENT_OCID.isNone) = false →
      (args.freeformTagsGiven && !args.freeformTagsIsDict) = false →
      (args.definedTagsGiven && !args.definedTagsIsDict) = false →
      validate_metadata (customAfterAdd art) art.metadataTaxonomy = .ok () →
      art.schemaValid = false →
      save env art args upload = (.error .schemaInvalid, []))
    ∧ (training_code_checks art args = .ok () →
      (args.projectId.isNone && env.PROJECT_OCID.isNone) = false →
      (args.compartmentId.isNone && env.NB_SESSION_COMPARTMENT_OCID.isNone) = false →
      (args.freeformTagsGiven && !args.freeformTagsIsDict) = false →
      (args.definedTagsGiven && !args.definedTagsIsDict) = false →
      validate_metadata (customAfterAdd art) art.metadataTaxonomy = .ok () →
      art.schemaValid = true →
      (!args.ignoreIntrospection && !art.introspectionPassed) = true →
      save env art args upload = (.error .introspectionNotPassed, []))
    ∧ (∀ modelId, training_code_checks art args = .ok () →
      (args.projectId.isNone && env.PROJECT_OCID.isNone) = false →
      (args.compartmentId.isNone && env.NB_SESSION_COMPARTMENT_OCID.isNone) = false →
      (args.freeformTagsGiven && !args.freeformTagsIsDict) = false →
      (args.definedTagsGiven && !args.definedTagsIsDict) = false →
      validate_metadata (customAfterAdd art) art.metadataTaxonomy = .ok () →
      art.schemaValid = true →
      (!args.ignoreIntrospection && !art.introspectionPassed) = false →
      upload = .success modelId →
      save env art args upload = (.ok (some modelId), [.remoteCall])) := by
  refine ⟨?_, ?_, ?_, ?_, ?_, ?_, ?_⟩
  · intro e h
    simp [save, htime, h]
  · intro h hp
    simp [save, htime, h, hp]
  · intro h hp hc
    simp [save, htime, h, hp, hc]
  · intro e h hp hc hf hd hm
    simp [save, htime, h, hp, hc, hf, hd, hm]
  · intro h hp hc hf hd hm hs
    simp [save, htime, h, hp, hc, hf, hd, hm, hs]
  · intro h hp hc hf hd hm hs hi
    simp [save, htime, h, hp, hc, hf, hd, hm, hs, hi]
  · intro modelId h hp hc hf hd hm hs hi hu
    simp [save, htime, h, hp, hc, hf, hd, hm, hs, hi, hu]

/-- Witness for C3's amended theorem: the missing-identifier check
fires on an artifact whose metadata is simultaneously oversized. -/
theorem save_checklist_order_witness :
    save wEnvNone wArtOversized wArgsBase (.success 1) = (.error .missingProjectId, []) :=
  (save_checklist_order wEnvNone wArtOversized wArgsBase (.success 1) rfl).2.1 rfl rfl

/-- C5: whenever runtime-descriptor generation ends with
`INFERENCE_CONDA_ENV.INFERENCE_ENV_PATH` unset and no inference conda
override was supplied, the generation fails — unless the per-bundle
`ignore_deployment_error` override is set, in which case it degrades to
a logged warning and the document is produced without a
`MODEL_DEPLOYMENT` section. -/
theorem runtime_yaml_requires_inference_env (training : TrainingEnvInfo)
    (ipv : Option Str) (dse : Bool) (lookup : CondaLookup) (inf : InferenceInfo)
    (hres : resolveInferenceInfo training none ipv lookup = .ok inf)
    (hpath : inf.path = none) :
    generate_runtime_yaml training none ipv dse false lookup = .error .missingCondaInfo
    ∧ ∃ ws, generate_runtime_yaml training none ipv dse true lookup
        = .ok { inferenceInfo := inf, hasModelDeployment := false, warnings := ws }
      ∧ RtWarning.missingCondaInfo ∈ ws := by
  unfold resolveInferenceInfo at hres
  by_cases htp : (training.envType.isSome && training.path.isSome) = true
  · rw [if_pos htp] at hres
    simp only [Except.ok.injEq] at hres
    subst hres
    simp only at hpath
    simp [hpath] at htp
  · rw [if_neg htp] at hres
    simp only [Except.ok.injEq] at hres
    subst hres
    refine ⟨?_, [RtWarning.missingCondaInfo], ?_, by simp⟩
    · simp [generate_runtime_yaml, resolveInferenceInfo, htp, emptyInferenceInfo]
    · simp [generate_runtime_yaml, resolveInferenceInfo, htp, emptyInferenceInfo]

/-- A training environment with nothing resolved (no pack type, no
publish destination). -/
def wTrainingNone : TrainingEnvInfo :=
  { slug := none, envType := none, path := none, pythonVersion := none }

/-- Witness for C5: with no resolvable training environment and no
override, generation fails by default and degrades to a warning under
`ignore_deployment_error`. -/
theorem runtime_yaml_requires_inference_env_witness :
    generate_runtime_yaml wTrainingNone none none false false .failed
      = .error .missingCondaInfo
    ∧ ∃ ws, generate_runtime_yaml wTrainingNone none none false true .failed
        = .ok { inferenceInfo := emptyInferenceInfo, hasModelDeployment := false,
                warnings := ws }
      ∧ RtWarning.missingCondaInfo ∈ ws :=
  runtime_yaml_requires_inference_env wTrainingNone none false .failed emptyInferenceInfo
    rfl rfl

/-! ### Glob-matching lemmas for `_get_files` -/

theorem globMatch_char_nil (c : Char) (p : Str)
    (h1 : (c == '*') = false) (h2 : (c == '?') = false) :
    globMatch (c :: p) [] = false := by
  simp [globMatch, h1, h2]

theorem globMatch_char_cons (c : Char) (p : Str) (c' : Char) (s : Str)
    (h1 : (c == '*') = false) (h2 : (c == '?') = false) :
    globMatch (c :: p) (c' :: s) = (c == c' && globMatch p s) := by
  simp [globMatch, h1, h2]

theorem globMatch_star (p s : Str) :
    globMatch ('*' :: p) s = s.tails.any (fun t => globMatch p t) := by
  simp [globMatch]

/-- A wildcard-free pattern matches exactly itself. -/
theorem globMatch_literal (p : Str)
    (hp : ∀ c ∈ p, (c == '*') = false ∧ (c == '?') = false) (s : Str) :
    globMatch p s = true ↔ s = p := by
  induction p generalizing s with
  | nil =>
    simp [globMatch, List.isEmpty_iff]
  | cons c p ih =>
    have h1 := (hp c (List.mem_cons_self c p)).1
    have h2 := (hp c (List.mem_cons_self c p)).2
    cases s with
    | nil =>
      rw [globMatch_char_nil c p h1 h2]
      simp
    | cons c' s' =>
      rw [globMatch_char_cons c p c' s' h1 h2]
      rw [Bool.and_eq_true, beq_iff_eq]
      rw [ih (fun x hx => hp x (List.mem_cons_of_mem c hx))]
      constructor
      · rintro ⟨rfl, rfl⟩
        rfl
      · intro h
        injection h with ha hb
        exact ⟨ha.symm, hb⟩

theorem searchGlob_iff (p s : Str) :
    searchGlob p s = true ↔ ∃ t, t <:+ s ∧ globMatch p t = true := by
  simp [searchGlob, List.any_eq_true, List.mem_tails]

/-- The translated pattern `"/*.tmp"` matches a string iff it is a `/`
followed by something that ends in `".tmp"`. -/
theorem globMatch_slashStarTmp (t : Str) :
    globMatch "/*.tmp".data t = true ↔ ∃ t', t = '/' :: t' ∧ ".tmp".data <:+ t' := by
  have hpat : ("/*.tmp".data : Str) = '/' :: '*' :: ".tmp".data := rfl
  rw [hpat]
  cases t with
  | nil =>
    rw [globMatch_char_nil _ _ (by decide) (by decide)]
    simp
  | cons c t' =>
    rw [globMatch_char_cons _ _ _ _ (by decide) (by decide)]
    rw [Bool.and_eq_true, globMatch_star, List.any_eq_true]
    constructor
    · rintro ⟨hc, u, hu, hg⟩
      have hcv : c = '/' := by
        have := beq_iff_eq.mp hc
        exact this.symm
      have hu' : u <:+ t' := (List.mem_tails _ _).mp hu
      have hlit := (globMatch_literal ".tmp".data (by decide) u).mp hg
      rw [hlit] at hu'
      exact ⟨t', by rw [hcv], hu'⟩
    · rintro ⟨t'', heq, hsuf⟩
      injection heq with ha hb
      subst ha hb
      refine ⟨rfl, ".tmp".data, (List.mem_tails _ _).mpr hsuf, ?_⟩
      exact (globMatch_literal ".tmp".data (by decide) _).mpr rfl

/-- Appending a non-whitespace character keeps a string non-blank
under `pstrip`. -/
theorem pstrip_append_ne_nil (p : Str) (c : Char) (h : isPyWs c = false) :
    pstrip (p ++ [c]) ≠ [] := by
  unfold pstrip
  obtain ⟨q, hq⟩ : ∃ q, (p ++ [c]).dropWhile isPyWs = q ++ [c] := by
    rw [List.dropWhile_append]
    split
    · exact ⟨[], by simp [List.dropWhile_cons, h]⟩
    · exact ⟨p.dropWhile isPyWs, rfl⟩
  rw [hq, List.reverse_append]
  simp [List.dropWhile_cons, h]

/-- On a path of the form `dir ++ "/" ++ rel`, the search for the
translated `"/*.tmp"` pattern holds exactly when the relative part ends
in `".tmp"`. -/
theorem searchGlob_slashStarTmp_append (d r : Str) :
    searchGlob "/*.tmp".data (d ++ '/' :: r) = ".tmp".data.isSuffixOf r := by
  rw [Bool.eq_iff_iff, searchGlob_iff, List.isSuffixOf_iff_suffix]
  constructor
  · rintro ⟨t, hts, ht⟩
    obtain ⟨t', rfl, hsuf⟩ := (globMatch_slashStarTmp t).mp ht
    have h1 : ".tmp".data <:+ d ++ '/' :: r :=
      hsuf.trans ((List.suffix_cons '/' t').trans hts)
    rcases List.suffix_or_suffix_of_suffix h1 (List.suffix_append d ('/' :: r)) with h | h
    · rcases List.suffix_cons_iff.mp h with h | h
      · exfalso
        have hpat : (".tmp".data : Str) = '.' :: "tmp".data := rfl
        rw [hpat] at h
        injection h with ha _
        exact absurd ha (by decide)
      · exact h
    · exfalso
      have hmem : '/' ∈ (".tmp".data : Str) := h.subset (List.mem_cons_self '/' r)
      exact absurd hmem (by decide)
  · intro hsuf
    refine ⟨'/' :: r, List.suffix_append d ('/' :: r), ?_⟩
    exact (globMatch_slashStarTmp _).mpr ⟨r, rfl, hsuf⟩

/-- Joining a relative entry under the artifact directory and stripping
`len(artifact_dir) + 1` characters returns the relative entry. -/
theorem get_files_drop (d r : Str) : (d ++ '/' :: r).drop (d.length + 1) = r := by
  have h : d ++ '/' :: r = (d ++ ['/']) ++ r := by simp
  rw [h, List.drop_left' (by simp)]

/-- A non-comment, non-blank pattern filters the file names through the
translated glob. -/
theorem applyIgnorePattern_not_special (ig : Str) (fns : List Str)
    (hcomment : (ig.head? == some '#') = false)
    (hblank : (pstrip ig == ([] : Str)) = false) :
    applyIgnorePattern fns ig
      = fns.filter (fun f =>
          !searchGlob
            ('/' :: pstrip (if ig.getLast? == some '/' then ig.dropLast ++ ['*'] else ig))
            f) := by
  simp [applyIgnorePattern, hcomment, hblank]

/-- C7: `_get_files()` returns paths relative to the artifact root:
with the single ignore pattern `*.tmp` it excludes exactly the paths
ending in `.tmp` and keeps all others; with an absent or empty
`.model-ignore` it returns every walked file and directory unchanged;
`#`-prefixed and blank pattern lines are skipped; and a trailing `/` on
a pattern is treated as a `*` wildcard suffix. -/
theorem get_files_spec :
    (∀ (d : Str) (rels : List Str),
      get_files d rels (some "*.tmp".data)
        = rels.filter (fun r => !(".tmp".data.isSuffixOf r)))
    ∧ (∀ (d : Str) (rels : List Str), get_files d rels none = rels)
    ∧ (∀ (d : Str) (rels : List Str), get_files d rels (some []) = rels)
    ∧ (∀ (fns : List Str) (ig : Str),
      ig.head? = some '#' ∨ pstrip ig = [] → applyIgnorePattern fns ig = fns)
    ∧ (∀ (fns : List Str) (p : Str),
      applyIgnorePattern fns (p ++ ['/']) = applyIgnorePattern fns (p ++ ['*'])) := by
  have hco : ∀ d : Str,
      ((fun f : Str => f.drop (d.length + 1)) ∘ fun r => d ++ '/' :: r) = fun r : Str => r := by
    intro d
    funext r
    exact get_files_drop d r
  have hmapdrop : ∀ (d : Str) (rels : List Str),
      ((rels.map fun r => d ++ '/' :: r).map fun f => f.drop (d.length + 1)) = rels := by
    intro d rels
    rw [List.map_map, hco d]
    exact List.map_id' rels
  refine ⟨?_, ?_, ?_, ?_, ?_⟩
  · intro d rels
    have h1 : get_files d rels (some "*.tmp".data)
        = ((rels.map fun r => d ++ '/' :: r).filter
            (fun f => !searchGlob "/*.tmp".data f)).map
              (fun f => f.drop (d.length + 1)) := rfl
    have hpred : ∀ r ∈ rels,
        ((fun f => !searchGlob "/*.tmp".data f) ∘ fun r => d ++ '/' :: r) r
          = (fun r => !(".tmp".data.isSuffixOf r)) r := by
      intro r _
      simp only [Function.comp]
      rw [searchGlob_slashStarTmp_append]
    rw [h1, List.filter_map, List.filter_congr hpred, List.map_map, hco d]
    exact List.map_id' _
  · intro d rels
    exact hmapdrop d rels
  · intro d rels
    exact hmapdrop d rels
  · intro fns ig h
    rcases h with h | h
    · simp [applyIgnorePattern, h]
    · simp [applyIgnorePattern, h]
  · intro fns p
    by_cases hc : ((p ++ ['/']).head? == some '#') = true
    · have hc2 : ((p ++ ['*']).head? == some '#') = true := by
        cases p with
        | nil => exact absurd hc (by decide)
        | cons a p' => simpa using hc
      have hL : ((p ++ ['/']).head? == some '#'
          || pstrip (p ++ ['/']) == ([] : Str)) = true := by
        rw [hc, Bool.true_or]
      have hR : ((p ++ ['*']).head? == some '#'
          || pstrip (p ++ ['*']) == ([] : Str)) = true := by
        rw [hc2, Bool.true_or]
      unfold applyIgnorePattern
      rw [hL, hR, if_pos rfl, if_pos rfl]
    · have hcF : ((p ++ ['/']).head? == some '#') = false := Bool.eq_false_iff.mpr hc
      have hcF2 : ((p ++ ['*']).head? == some '#') = false := by
        cases p with
        | nil => decide
        | cons a p' => simpa using hcF
      have hbF : (pstrip (p ++ ['/']) == ([] : Str)) = false := by
        rw [beq_eq_false_iff_ne]
        exact pstrip_append_ne_nil p '/' (by decide)
      have hbF2 : (pstrip (p ++ ['*']) == ([] : Str)) = false := by
        rw [beq_eq_false_iff_ne]
        exact pstrip_append_ne_nil p '*' (by decide)
      rw [applyIgnorePattern_not_special _ _ hcF hbF,
        applyIgnorePattern_not_special _ _ hcF2 hbF2]
      have htrans :
          (if (p ++ ['/']).getLast? == some '/' then (p ++ ['/']).dropLast ++ ['*']
           else p ++ ['/'])
            = (if (p ++ ['*']).getLast? == some '/' then (p ++ ['*']).dropLast ++ ['*']
               else p ++ ['*']) := by
        rw [List.getLast?_concat, List.getLast?_concat]
        rw [if_pos (by decide), if_neg (by decide), List.dropLast_concat]
      rw [htrans]

/-- Witness for C7: a `*.tmp` pattern drops exactly the `.tmp` entry,
and a `#` comment line leaves the file list untouched. -/
theorem get_files_spec_witness :
    get_files "/art".data ["data.tmp".data, "score.py".data] (some "*.tmp".data)
      = ["score.py".data]
    ∧ applyIgnorePattern ["x".data] "# skip nothing".data = ["x".data] := by
  constructor
  · rw [get_files_spec.1 "/art".data ["data.tmp".data, "score.py".data]]
    decide
  · exact get_files_spec.2.2.2.1 ["x".data] "# skip nothing".data (Or.inl rfl)

end Ads
